import Mathlib

/-!
# Verification of the NodeSirportlyAPI client library

A shallow embedding of `src/index.js` (the Sirportly V2 API client for
NodeJS): client construction and configuration merging, the request
dispatcher (`SirportlyAPI.prototype.request`), its response handler, and
the convenience operations the claims touch (`tickets`, `create_user`).

Modelling conventions:
- JavaScript objects whose key sets are open (JSON bodies, `qs`/`form`
  parameter bags) are association lists `List (String × Json)`;
  property access takes the first matching key.
- JSON numbers are modelled as `Int` (the claims only involve integral
  values such as status codes and page numbers).
- The runtime's `JSON.parse` is an external collaborator; the response
  handler is parametrised by a function `parse : String → Option Json`,
  `none` standing for a parse exception.
- A JS value that may be either a number or a function (the `page` /
  `callback` arguments) is `JsArg`; functions are identified by a `Nat`
  tag, since the dispatcher only ever stores or type-checks them.
- `throw` in the JS source becomes `Except.error` carrying the message.
-/

namespace Sirportly

/-- Decoded JSON values, the output type of the runtime's `JSON.parse`. -/
inductive Json where
  | null
  | bool (b : Bool)
  | num (n : Int)
  | str (s : String)
  | arr (elems : List Json)
  | obj (fields : List (String × Json))
deriving Repr, BEq

/-- First-match lookup in an association list, as JS property access on an
object literal with distinct keys. -/
def lookupKey {β : Type} (k : String) : List (String × β) → Option β
  | [] => none
  | (k', v) :: rest => if k = k' then some v else lookupKey k rest

/-- JS property access `j.k`: a `null` receiver throws a TypeError
(`Except.error`); other primitive receivers are boxed and yield
`undefined` (`Except.ok none`); an object receiver yields the field's
value, or `undefined` when the key is missing. -/
def Json.getField (j : Json) (k : String) : Except String (Option Json) :=
  match j with
  | .null => Except.error ("TypeError: Cannot read properties of null (reading " ++ k ++ ")")
  | .obj fields => Except.ok (lookupKey k fields)
  | _ => Except.ok none

/-- JS truthiness of a `Json` value. -/
def Json.truthy : Json → Bool
  | .null => false
  | .bool b => b
  | .num n => n != 0
  | .str s => s != ""
  | .arr _ => true
  | .obj _ => true

/-- JS truthiness of a possibly-`undefined` value (`undefined` is
falsy). -/
def jsTruthy : Option Json → Bool
  | some v => v.truthy
  | none => false

/-- Truthiness of the access `j.k` when it does not throw; `false` when
the value is falsy, the field is missing, or the access throws. -/
def Json.fieldTruthy (j : Json) (k : String) : Bool :=
  match j.getField k with
  | Except.ok f => jsTruthy f
  | Except.error _ => false

mutual

/-- JS `String(x)` conversion of a decoded JSON value. -/
def jsToString : Json → String
  | .null => "null"
  | .bool b => cond b "true" "false"
  | .num n => toString n
  | .str s => s
  | .arr elems => jsArrJoin elems
  | .obj _ => "[object Object]"

/-- JS `Array.prototype.toString` (join with `","`; `null` elements
become the empty string). -/
def jsArrJoin : List Json → String
  | [] => ""
  | [Json.null] => ""
  | [x] => jsToString x
  | Json.null :: rest => "," ++ jsArrJoin rest
  | x :: rest => jsToString x ++ "," ++ jsArrJoin rest

end

/-- A JS `Error` object: only the message survives construction. -/
structure JsError where
  message : String
deriving Repr, BEq, DecidableEq

/-- JS `new Error(x)` (line 136 passes `body_json.error` directly):
the message is `String(x)`. -/
def newError (arg : Json) : JsError :=
  { message := jsToString arg }

/-- JS `new Error(m, a, b)` as on line 142, `new Error(body,
response.statusCode, body)`: the `Error` constructor keeps only the first
argument as the message; the extra positional arguments (a number and a
string, not an options object) are discarded. -/
def newError3 (m : String) (_code : Int) (_body : String) : JsError :=
  { message := m }

/-- The caller-supplied configuration object: each recognized key either
present with a string/number value or absent (`none`). -/
structure ConfigInput where
  token : Option String := none
  secret : Option String := none
  server : Option String := none
  protocol : Option String := none
  port : Option Int := none
deriving Repr, DecidableEq

/-- `this._config` after `merge(_default_config, config || {})`
(src/index.js line 63): required keys may still be `null` (`none`),
`protocol` and `port` have defaults. -/
structure MergedConfig where
  token : Option String
  secret : Option String
  server : Option String
  protocol : String
  port : Int
deriving Repr, DecidableEq

/-- Shallow merge of the caller config over `_default_config`
(src/index.js lines 28–63): caller keys win, absent keys fall back to
the defaults (`null`, `null`, `null`, `"http"`, `80`). -/
def mergeDefaults (c : ConfigInput) : MergedConfig :=
  { token := c.token
    secret := c.secret
    server := c.server
    protocol := c.protocol.getD "http"
    port := c.port.getD 80 }

/-- A validated client configuration: the `_config` held by a
successfully constructed `SirportlyAPI` instance. -/
structure Config where
  token : String
  secret : String
  server : String
  protocol : String
  port : Int
deriving Repr, DecidableEq

/-- The construction-failure message thrown on src/index.js line 70. -/
def misconfigMsg : String :=
  "Misconfiguration, token, secret and server required in the config."

/-- The `SirportlyAPI` constructor (src/index.js lines 23–74): merge the
caller config over the defaults, then throw unless `token`, `secret` and
`server` are all truthy (present and non-empty). The `debug` trace line
is observational and not modelled. -/
def SirportlyAPI (config : Option ConfigInput) : Except String Config :=
  let m := mergeDefaults (config.getD {})
  match m.token, m.secret, m.server with
  | some t, some s, some sv =>
    if t = "" ∨ s = "" ∨ sv = "" then
      Except.error misconfigMsg
    else
      Except.ok { token := t, secret := s, server := sv,
                  protocol := m.protocol, port := m.port }
  | _, _, _ => Except.error misconfigMsg

/-- `SirportlyAPI.prototype.getConfig` (src/index.js lines 156–158):
returns the stored `_config`. -/
def getConfig (c : Config) : Config := c

/-- An options object for the `request` npm library: the keys the
dispatcher and its callers use, each present (`some`) or absent. -/
structure ReqOptions where
  method : Option String := none
  url : Option String := none
  headers : Option (List (String × String)) := none
  qs : Option (List (String × Json)) := none
  form : Option (List (String × Json)) := none
deriving Repr

/-- One key of the `merge` npm package's shallow merge: the second
object's key wins when present. -/
def optMerge {α : Type} (a b : Option α) : Option α :=
  match b with
  | some v => some v
  | none => a

/-- `merge(defaults, options)` on request options (src/index.js lines
95–102): shallow, per-key, caller values win; a caller `headers` key
replaces the whole default header map. -/
def mergeOptions (a b : ReqOptions) : ReqOptions :=
  { method := optMerge a.method b.method
    url := optMerge a.url b.url
    headers := optMerge a.headers b.headers
    qs := optMerge a.qs b.qs
    form := optMerge a.form b.form }

/-- The endpoint URL built on src/index.js line 89:
`protocol + "://" + server + ":" + port + uri`. -/
def buildEndpoint (cfg : Config) (uri : String) : String :=
  cfg.protocol ++ "://" ++ cfg.server ++ ":" ++ toString cfg.port ++ uri

/-- The default request options of src/index.js lines 95–102: method
`GET`, the built URL, and the two authentication headers from the
configuration. -/
def defaultRequestOptions (cfg : Config) (endpoint : String) : ReqOptions :=
  { method := some "GET"
    url := some endpoint
    headers := some [("X-Auth-Token", cfg.token), ("X-Auth-Secret", cfg.secret)]
    qs := none
    form := none }

/-- A JS argument value that may be a number or a function (the shapes
the `tickets` first argument and the callback slots take). -/
inductive JsArg where
  | num (n : Int)
  | func (f : Nat)
deriving Repr, DecidableEq

/-- The synchronous part of `SirportlyAPI.prototype.request`
(src/index.js lines 82–111): the outbound call it hands to the transport
— merged options plus the callback's identity. -/
structure Dispatched where
  options : ReqOptions
  callback : Nat
deriving Repr

/-- The invalid-callback message thrown on src/index.js line 84 (the
typo `fuction` is the source's). -/
def badCallbackMsg : String := "Callback parameter must be a fuction"

/-- `SirportlyAPI.prototype.request`, synchronous part (src/index.js
lines 82–111): throw unless the callback is a function
(`!callback || typeof callback != "function"`); build the endpoint;
merge the caller options over the defaults; invoke the transport with
the merged options. -/
def request (cfg : Config) (uri : String) (options : ReqOptions)
    (callback : Option JsArg) : Except String Dispatched :=
  match callback with
  | some (JsArg.func f) =>
    Except.ok
      { options := mergeOptions (defaultRequestOptions cfg (buildEndpoint cfg uri)) options
        callback := f }
  | _ => Except.error badCallbackMsg

/-- One invocation of the completion callback. -/
inductive CbCall where
  /-- `callback(error)` with the transport error (line 115). -/
  | transport (e : String)
  /-- `callback(new Error(...))` (lines 136 and 142). -/
  | failure (e : JsError)
  /-- `callback(null, body_json)` (line 148). -/
  | success (body : Json)
deriving Repr, BEq

/-- The response handler installed by `SirportlyAPI.prototype.request`
(src/index.js lines 111–149). `parse` is the runtime's `JSON.parse`
(`none` = it throws). The result is the list of callback invocations the
handler makes, paired with `true` when an uncaught exception escapes it.
The status block (lines 131–143) is `statusBlock`: `Except.error` when
a property access `body_json.error` / `body_json.errors` throws (the
decoded body is JSON `null`), `Except.ok (some c)` when one of its early
returns fires, and `Except.ok none` when control falls through — in-range
status, or out-of-range with neither error shape truthy — to
`callback(null, body_json)` on line 148. -/
def requestHandler (parse : String → Option Json) (error : Option String)
    (statusCode : Int) (body : String) : List CbCall × Bool :=
  match error with
  | some e => ([CbCall.transport e], false)
  | none =>
    match parse body with
    | none => ([], true)
    | some body_json =>
      let statusBlock : Except String (Option CbCall) :=
        if statusCode > 299 ∨ statusCode < 200 then
          match body_json.getField "error" with
          | Except.error e => Except.error e
          | Except.ok errField =>
            if jsTruthy errField then
              Except.ok (some (CbCall.failure (newError (errField.getD Json.null))))
            else
              match body_json.getField "errors" with
              | Except.error e => Except.error e
              | Except.ok errsField =>
                if jsTruthy errsField then
                  Except.ok (some (CbCall.failure (newError3 body statusCode body)))
                else
                  Except.ok none
        else
          Except.ok none
      match statusBlock with
      | Except.error _ => ([], true)
      | Except.ok (some c) => ([c], false)
      | Except.ok none => ([CbCall.success body_json], false)

/-- `merge(a, b)` on plain parameter bags (src/index.js line 318):
`b`'s keys overwrite `a`'s, keys of `a` keep their position, new keys of
`b` follow. -/
def mergeObj (a b : List (String × Json)) : List (String × Json) :=
  a.map (fun kv => (kv.1, (lookupKey kv.1 b).getD kv.2))
    ++ b.filter (fun kv => (lookupKey kv.1 a).isNone)

/-- `SirportlyAPI.prototype.create_user` (src/index.js lines 317–319):
POST `/api/v2/users/create` with `qs` the three named fields merged with
the extra `params` (the `params` keys winning). -/
def create_user (cfg : Config) (email first last : String)
    (params : List (String × Json)) (callback : Option JsArg) :
    Except String Dispatched :=
  request cfg "/api/v2/users/create"
    { method := some "POST"
      qs := some (mergeObj
        [("email_address", Json.str email), ("first_name", Json.str first),
         ("last_name", Json.str last)] params) }
    callback

/-- The dispatch on src/index.js line 179:
`this.request('/api/v2/tickets/all', {qs: {page: (page || 1)}}, callback)`
with `page` a number at this point (`page || 1` turns a falsy `0` into
`1`). -/
def ticketsDispatch (cfg : Config) (page : Int) (callback : Option JsArg) :
    Except String Dispatched :=
  request cfg "/api/v2/tickets/all"
    { qs := some [("page", Json.num (if page = 0 then 1 else page))] }
    callback

/-- `SirportlyAPI.prototype.tickets` (src/index.js lines 177–180).
Line 178 is `if(typeof page == 'function'){ page = 1; callback = page;}`:
when the first argument is a function, `page` is set to `1` FIRST, and
`callback = page` then assigns the number `1` — not the caller's
function — to the callback slot. -/
def tickets (cfg : Config) (page : JsArg) (callback : Option JsArg) :
    Except String Dispatched :=
  match page with
  | JsArg.func _ => ticketsDispatch cfg 1 (some (JsArg.num 1))
  | JsArg.num n => ticketsDispatch cfg n callback

/-- Whether `pat` occurs as a contiguous run of `l` (list version). -/
def clStartsWith : List Char → List Char → Bool
  | [], _ => true
  | _ :: _, [] => false
  | a :: as, b :: bs => a == b && clStartsWith as bs

/-- Whether `pat` occurs contiguously anywhere in the second list. -/
def clOccurs (pat : List Char) : List Char → Bool
  | [] => clStartsWith pat []
  | c :: rest => clStartsWith pat (c :: rest) || clOccurs pat rest

/-- Whether the string `pat` occurs as a substring of `s` — the sense in
which an error message can be said to embed a status code or a body. -/
def strOccurs (pat s : String) : Bool :=
  clOccurs pat.toList s.toList

/-- A concrete valid client configuration used by witnesses and
counterexamples. -/
def cfg0 : Config :=
  { token := "tok", secret := "sec", server := "api.example.com",
    protocol := "http", port := 80 }

/-- A concrete stand-in for `JSON.parse` that decodes every body to the
plural-errors envelope `{"errors":["a","b"]}`. -/
def parseErrsAB : String → Option Json :=
  fun _ => some (Json.obj [("errors", Json.arr [Json.str "a", Json.str "b"])])

/-- The raw text of the plural-errors envelope. -/
def rawErrsBody : String := "\x7b\"errors\":[\"a\",\"b\"]\x7d"

/-- A concrete stand-in for `JSON.parse` that decodes every body to the
single-error envelope `{"error":"not found"}`. -/
def parseNotFound : String → Option Json :=
  fun _ => some (Json.obj [("error", Json.str "not found")])

/-!
## Theorems settling the claims
-/

/-- C1 (amended): the response handler invokes the completion callback
at most once under every branch; it invokes it exactly once whenever the
transport reported an error, and whenever the body decodes as JSON
except on the path where the decoded body is JSON `null` and the status
is out of range — there `body_json.error` throws an uncaught TypeError
and the callback is never invoked. -/
theorem callback_at_most_once (parse : String → Option Json)
    (error : Option String) (statusCode : Int) (body : String) :
    (requestHandler parse error statusCode body).1.length ≤ 1 ∧
      (error.isSome = true ∨
        (∃ j, parse body = some j ∧
          ¬(j = Json.null ∧ (statusCode > 299 ∨ statusCode < 200))) →
        (requestHandler parse error statusCode body).1.length = 1) := by
  unfold requestHandler
  cases error with
  | some e => simp
  | none =>
    cases hp : parse body with
    | none => simp [hp]
    | some j =>
      by_cases hst : statusCode > 299 ∨ statusCode < 200
      · cases j <;>
          simp [hp, hst, Json.getField, jsTruthy] <;>
          split_ifs <;> simp_all
      · simp [hp, hst]

/-- Witness for `callback_at_most_once`: a success response invokes the
callback exactly once. -/
theorem callback_at_most_once_witness :
    (requestHandler (fun _ => some (Json.obj [("foo", Json.str "bar")]))
        none 200 "\x7b\"foo\":\"bar\"\x7d").1.length = 1 :=
  (callback_at_most_once (fun _ => some (Json.obj [("foo", Json.str "bar")]))
      none 200 "\x7b\"foo\":\"bar\"\x7d").2
    (Or.inr ⟨Json.obj [("foo", Json.str "bar")], rfl, by simp⟩)

/-- C1 counterexample: for the body `"null"` — which decodes
successfully, to JSON `null` — with status 500 and no transport error,
the handler makes zero callback invocations (the TypeError at
`body_json.error` escapes), refuting "exactly once on every execution
path on which the response body successfully decodes as JSON". -/
theorem callback_not_exactly_once_on_null :
    ((fun _ => some Json.null) "null" : Option Json).isSome = true
    ∧ (requestHandler (fun _ => some Json.null) none 500 "null").1.length = 0
    ∧ (requestHandler (fun _ => some Json.null) none 500 "null").2 = true :=
  ⟨rfl, rfl, rfl⟩

/-- C9: when the transport succeeds but the body is not valid JSON, the
parse exception escapes the response handler uncaught and the callback
is never invoked on that path. -/
theorem parse_failure_uncaught (parse : String → Option Json)
    (statusCode : Int) (body : String) (h : parse body = none) :
    requestHandler parse none statusCode body = ([], true) := by
  unfold requestHandler
  simp [h]

/-- Witness for `parse_failure_uncaught`: a non-JSON body yields no
callback invocation and an escaped exception. -/
theorem parse_failure_uncaught_witness :
    requestHandler (fun _ => none) none 200 "not json" = ([], true) :=
  parse_failure_uncaught (fun _ => none) 200 "not json" rfl

/-- C6 (amended): an out-of-range status whose decoded body is not JSON
`null` and has neither a truthy `error` nor a truthy `errors` field
falls through to the success path: the callback receives
`(null, body_json)`. (For a decoded body of JSON `null`, the error-shape
check itself throws an uncaught TypeError instead — see the
counterexample.) -/
theorem fallthrough_success (parse : String → Option Json)
    (statusCode : Int) (body : String) (j : Json)
    (_hout : statusCode > 299 ∨ statusCode < 200)
    (hp : parse body = some j)
    (hnn : j ≠ Json.null)
    (he : j.fieldTruthy "error" = false)
    (hes : j.fieldTruthy "errors" = false) :
    requestHandler parse none statusCode body = ([CbCall.success j], false) := by
  unfold requestHandler
  cases j with
  | null => exact absurd rfl hnn
  | bool b => simp [hp, Json.getField, jsTruthy]
  | num n => simp [hp, Json.getField, jsTruthy]
  | str s => simp [hp, Json.getField, jsTruthy]
  | arr elems => simp [hp, Json.getField, jsTruthy]
  | obj fields =>
    simp only [Json.fieldTruthy, Json.getField] at he hes
    simp [hp, Json.getField, he, hes]

/-- Witness for `fallthrough_success`: status 500 with body `{}` still
invokes the callback with the decoded body and a null error. -/
theorem fallthrough_success_witness :
    requestHandler (fun _ => some (Json.obj [])) none 500 "\x7b\x7d"
      = ([CbCall.success (Json.obj [])], false) :=
  fallthrough_success (fun _ => some (Json.obj [])) 500 "\x7b\x7d"
    (Json.obj []) (Or.inl (by decide)) rfl (by simp) rfl rfl

/-- C6 counterexample: status 500 with the body `"null"` — decoded to
JSON `null`, so neither error shape is truthy — does not fall through to
the success path: `body_json.error` on line 135 throws an uncaught
TypeError and the callback is never invoked. -/
theorem fallthrough_null_crashes :
    requestHandler (fun _ => some Json.null) none 500 "null" = ([], true)
    ∧ Json.fieldTruthy Json.null "error" = false
    ∧ Json.fieldTruthy Json.null "errors" = false :=
  ⟨rfl, rfl, rfl⟩

/-- C5: an out-of-range status whose decoded body has a truthy singular
`error` field invokes the callback with `new Error(body_json.error)` —
an error whose message is that field's value (its JS string
conversion; the identity on string fields). -/
theorem single_error_envelope (parse : String → Option Json)
    (statusCode : Int) (body : String) (j v : Json)
    (hout : statusCode > 299 ∨ statusCode < 200)
    (hp : parse body = some j)
    (hv : j.getField "error" = Except.ok (some v))
    (ht : v.truthy = true) :
    requestHandler parse none statusCode body
      = ([CbCall.failure { message := jsToString v }], false) := by
  unfold requestHandler
  cases j <;> simp [Json.getField] at hv
  simp [hp, Json.getField, jsTruthy, hv, ht, newError, if_pos hout]

/-- Witness for `single_error_envelope`: status 404 with body
`{"error":"not found"}` invokes the callback with an error whose
message is `"not found"`. -/
theorem single_error_envelope_witness :
    requestHandler parseNotFound none 404 "\x7b\"error\":\"not found\"\x7d"
      = ([CbCall.failure { message := "not found" }], false) :=
  single_error_envelope parseNotFound 404 "\x7b\"error\":\"not found\"\x7d"
    (Json.obj [("error", Json.str "not found")]) (Json.str "not found")
    (Or.inl (by decide)) rfl rfl rfl

/-- C4 (amended): an out-of-range status whose decoded body has a truthy
plural `errors` field (and no truthy singular `error` field) invokes the
callback with the non-null error `new Error(body, statusCode, body)`,
whose message is the raw response body; the status code is passed to the
`Error` constructor but discarded by it. -/
theorem plural_errors_envelope (parse : String → Option Json)
    (statusCode : Int) (body : String) (j : Json)
    (hout : statusCode > 299 ∨ statusCode < 200)
    (hp : parse body = some j)
    (he : j.fieldTruthy "error" = false)
    (hes : j.fieldTruthy "errors" = true) :
    requestHandler parse none statusCode body
      = ([CbCall.failure (newError3 body statusCode body)], false)
    ∧ (newError3 body statusCode body).message = body := by
  refine ⟨?_, rfl⟩
  unfold requestHandler
  cases j with
  | null => simp [Json.fieldTruthy, Json.getField] at hes
  | bool b => simp [Json.fieldTruthy, Json.getField, jsTruthy] at hes
  | num n => simp [Json.fieldTruthy, Json.getField, jsTruthy] at hes
  | str s => simp [Json.fieldTruthy, Json.getField, jsTruthy] at hes
  | arr elems => simp [Json.fieldTruthy, Json.getField, jsTruthy] at hes
  | obj fields =>
    simp only [Json.fieldTruthy, Json.getField] at he hes
    simp [hp, Json.getField, he, hes, if_pos hout]

/-- Witness for `plural_errors_envelope`: status 500 with body
`{"errors":["a","b"]}` invokes the callback with an error whose message
is the raw body. -/
theorem plural_errors_envelope_witness :
    requestHandler parseErrsAB none 500 rawErrsBody
      = ([CbCall.failure (newError3 rawErrsBody 500 rawErrsBody)], false)
    ∧ (newError3 rawErrsBody 500 rawErrsBody).message = rawErrsBody :=
  plural_errors_envelope parseErrsAB 500 rawErrsBody
    (Json.obj [("errors", Json.arr [Json.str "a", Json.str "b"])])
    (Or.inl (by decide)) rfl rfl rfl

/-- C4 counterexample: for status 500 and body `{"errors":["a","b"]}`
the single callback invocation carries an error whose entire content is
the message `{"errors":["a","b"]}` — the raw body — and the decimal
status code `500` does not occur in it, so the error does not embed the
numeric status code as the claim states. -/
theorem plural_errors_status_not_embedded :
    requestHandler parseErrsAB none 500 rawErrsBody
      = ([CbCall.failure { message := rawErrsBody }], false)
    ∧ strOccurs "500" rawErrsBody = false :=
  ⟨rfl, by decide⟩

/-- C3 (amended): every dispatched request whose caller options omit the
`headers` key carries the `X-Auth-Token` and `X-Auth-Secret` headers
populated from the configured token and secret; a caller-supplied
`headers` key replaces the whole default header map, so those requests
carry exactly the caller's headers instead. -/
theorem auth_headers_when_not_overridden (cfg : Config) (uri : String)
    (opts : ReqOptions) (f : Nat) :
    ∃ d, request cfg uri opts (some (JsArg.func f)) = Except.ok d ∧
      (opts.headers = none →
        d.options.headers
          = some [("X-Auth-Token", cfg.token), ("X-Auth-Secret", cfg.secret)]) ∧
      (∀ h, opts.headers = some h → d.options.headers = some h) := by
  refine ⟨_, rfl, ?_, ?_⟩
  · intro h
    simp [mergeOptions, defaultRequestOptions, optMerge, h]
  · intro hs h
    simp [mergeOptions, defaultRequestOptions, optMerge, h]

/-- Witness for `auth_headers_when_not_overridden`: a call with empty
options dispatches with exactly the two authentication headers. -/
theorem auth_headers_when_not_overridden_witness :
    ∃ d, request cfg0 "/api/v2/objects/statuses" {} (some (JsArg.func 0))
        = Except.ok d ∧
      (ReqOptions.headers {} = none →
        d.options.headers = some [("X-Auth-Token", cfg0.token), ("X-Auth-Secret", cfg0.secret)]) ∧
      (∀ h, ReqOptions.headers {} = some h → d.options.headers = some h) :=
  auth_headers_when_not_overridden cfg0 "/api/v2/objects/statuses" {} 0

/-- C3 counterexample: a caller-supplied `headers` key replaces the
default header map wholesale, so the dispatched request's header map is
the caller's empty map and contains no `X-Auth-Token` entry — refuting
"regardless of the caller-supplied options object". -/
theorem headers_override_drops_auth :
    request cfg0 "/api/v2/tickets/all" { headers := some [] }
        (some (JsArg.func 0))
      = Except.ok
          { options :=
              { method := some "GET",
                url := some "http://api.example.com:80/api/v2/tickets/all",
                headers := some [], qs := none, form := none },
            callback := 0 }
    ∧ lookupKey "X-Auth-Token" ([] : List (String × String)) = none :=
  ⟨rfl, rfl⟩

/-- C2: evaluating `tickets` at the failing input — the completion
callback passed as the first argument, as the spec and the function's
own doc comment allow. Line 178 runs `page = 1; callback = page;`, so
the callback slot receives the number `1` and `request` throws its
invalid-callback error instead of dispatching with the caller's
callback and page 1. -/
theorem tickets_callback_first_throws :
    tickets cfg0 (JsArg.func 7) none = Except.error badCallbackMsg :=
  rfl

/-- C7: construction fails (throwing the misconfiguration error, with no
client produced) exactly when, after merging over the defaults, the
token, secret, or server is missing (`none`) or falsy (the empty
string). -/
theorem construction_fails_iff (config : Option ConfigInput) :
    (∃ e, SirportlyAPI config = Except.error e) ↔
      ((config.getD {}).token = none ∨ (config.getD {}).token = some "" ∨
       (config.getD {}).secret = none ∨ (config.getD {}).secret = some "" ∨
       (config.getD {}).server = none ∨ (config.getD {}).server = some "") := by
  rcases config with _ | c
  · simp [SirportlyAPI, mergeDefaults]
  · rcases c with ⟨t, s, sv, p, po⟩
    rcases t with _ | t <;> rcases s with _ | s <;> rcases sv with _ | sv <;>
      simp [SirportlyAPI, mergeDefaults] <;>
      split_ifs with h <;> simp_all

/-- C8: for every valid configuration (present, non-empty token, secret
and server), construction succeeds and `getConfig` returns the effective
configuration — caller keys taken per key, with the defaults
`protocol = "http"` and `port = 80` applied when those keys are
omitted. -/
theorem construction_valid (c : ConfigInput) (t s sv : String)
    (ht : c.token = some t) (ht2 : t ≠ "")
    (hs : c.secret = some s) (hs2 : s ≠ "")
    (hv : c.server = some sv) (hv2 : sv ≠ "") :
    ∃ client, SirportlyAPI (some c) = Except.ok client ∧
      getConfig client
        = { token := t, secret := s, server := sv,
            protocol := c.protocol.getD "http",
            port := c.port.getD 80 } := by
  refine ⟨_, ?_, rfl⟩
  simp [SirportlyAPI, mergeDefaults, getConfig, ht, hs, hv, ht2, hs2, hv2]

/-- Witness for `construction_valid`: a config supplying only the three
required keys yields the defaults `protocol = "http"`, `port = 80`. -/
theorem construction_valid_witness :
    ∃ client,
      SirportlyAPI (some { token := some "tok", secret := some "sec",
                           server := some "api.example.com" })
        = Except.ok client ∧
      getConfig client
        = { token := "tok", secret := "sec", server := "api.example.com",
            protocol := "http", port := 80 } :=
  construction_valid
    { token := some "tok", secret := some "sec", server := some "api.example.com" }
    "tok" "sec" "api.example.com" rfl (by decide) rfl (by decide) rfl (by decide)

/-- C10: in `create_user`, the extra `params` bag is merged over the
three named fields with the `params` keys winning: whenever `params`
contains `email_address`, `first_name` or `last_name`, that value is the
one found in the dispatched query-string mapping. -/
theorem create_user_params_override (cfg : Config)
    (email first last : String) (params : List (String × Json))
    (f : Nat) (k : String) (v : Json)
    (hk : k = "email_address" ∨ k = "first_name" ∨ k = "last_name")
    (hv : lookupKey k params = some v) :
    ∃ d qs,
      create_user cfg email first last params (some (JsArg.func f))
        = Except.ok d ∧
      d.options.qs = some qs ∧ lookupKey k qs = some v := by
  refine ⟨_, _, rfl, rfl, ?_⟩
  rcases hk with rfl | rfl | rfl <;> simp [mergeObj, lookupKey, hv]

/-- Witness for `create_user_params_override`: a `params` bag carrying
`first_name` overrides the positional first-name argument in the
dispatched query string. -/
theorem create_user_params_override_witness :
    ∃ d qs,
      create_user cfg0 "ann@example.com" "Ann" "Lee"
          [("first_name", Json.str "Override")] (some (JsArg.func 0))
        = Except.ok d ∧
      d.options.qs = some qs ∧
      lookupKey "first_name" qs = some (Json.str "Override") :=
  create_user_params_override cfg0 "ann@example.com" "Ann" "Lee"
    [("first_name", Json.str "Override")] 0 "first_name"
    (Json.str "Override") (Or.inr (Or.inl rfl)) rfl

end Sirportly
